import Mathlib

/-!
Verification of the `ytmdctrl` command-line client (src/main.rs, src/statejson.rs):
a shallow embedding of its token store, pairing flow, command execution and
response interpretation, together with theorems checking the specification's
claims against the embedded code.

Modelling conventions:
* JSON values are modelled as trees (`Json`); a response body is either a JSON
  tree (the successful result of `serde_json::from_str::<Value>`) or raw text
  on which that parse fails (`BodyText.raw`).  JSON numbers distinguish
  integers from floating-point values, as `serde_json::Number` does.
* The token-store file is `Option TokenFile`: `none` when absent, otherwise a
  unix mode plus content.  `StoreContent.empty` is a zero-length file (what
  `std::fs::File::create` leaves behind before anything is written); it fails
  to parse as a token map, exactly as `serde_json::from_str` fails on "".
* Machine floats (`f32`) never flow into any arithmetic in the program, so a
  float is carried opaquely (`JsonNum.float` over `Rat`, `SetFloatArgs.target`).
* I/O (HTTP, sleeping, stdout) is modelled by passing the environment's
  responses in and returning the produced request / diagnostics / exit.
-/

namespace Ytmdctrl

/-- A JSON number as held by `serde_json::Number`: an integer or a float.
`serde_json` keeps the two apart; integer-typed fields (`u8`, `u32`, `isize`,
`#[repr(i8)]` enums) reject floating-point numbers. -/
inductive JsonNum where
  | int (n : Int)
  | float (q : Rat)
deriving DecidableEq

/-- A parsed JSON value (`serde_json::Value`). Objects are field lists with
distinct keys, as produced by the parser. -/
inductive Json where
  | null
  | bool (b : Bool)
  | num (n : JsonNum)
  | str (s : String)
  | arr (items : List Json)
  | obj (fields : List (String × Json))

/-- `serde_json::Value::get(key)`: field lookup on an object, `None` on any
other value. -/
def Json.get (j : Json) (key : String) : Option Json :=
  match j with
  | .obj fields => fields.lookup key
  | _ => none

/-- `serde_json::Value::as_str`. -/
def Json.as_str (j : Json) : Option String :=
  match j with
  | .str s => some s
  | _ => none

/-- `char::is_whitespace` (the Unicode White_Space property), used by
`str::trim`. -/
def isRustWhitespace (c : Char) : Bool :=
  let n := c.toNat
  (9 ≤ n && n ≤ 13) || n = 32 || n = 133 || n = 160 || n = 5760 ||
    (8192 ≤ n && n ≤ 8202) || n = 8232 || n = 8233 || n = 8239 || n = 8287 || n = 12288

/-- `str::trim` on the character list: drop leading whitespace, then drop
trailing whitespace (via reversal). -/
def trimChars (l : List Char) : List Char :=
  (((l.dropWhile isRustWhitespace).reverse.dropWhile isRustWhitespace)).reverse

/-- `str::trim` lifted to `String` (main.rs line 377: `let token = token.trim();`). -/
def trimString (s : String) : String :=
  String.mk (trimChars s.data)

/-- The shared options of most commands (main.rs `BaseArgs`): `--delay`,
`--server` (default `localhost`) and `--script`. -/
structure BaseArgs where
  delay : Option String
  server_addr : String
  script_mode : Bool
deriving DecidableEq

/-- `BaseArgs` with the `arg`-crate defaults applied (no delay, server
`localhost`, script mode off). -/
def defaultBaseArgs : BaseArgs :=
  ⟨none, "localhost", false⟩

/-- Arguments of `volume`/`seek`/`jumpto` (main.rs `SetFloatArgs`): a required
`f32` target plus `--delay`/`--server`.  The `f32` is carried opaquely as a
rational, since the program never computes with it. -/
structure SetFloatArgs where
  target : Rat
  delay : Option String
  server_addr : String
deriving DecidableEq

/-- Arguments of `open` (main.rs `VideoChangeRequestArgs`): optional `--video`
and `--playlist` plus `--delay`/`--server`. -/
structure VideoChangeRequestArgs where
  video : Option String
  playlist : Option String
  delay : Option String
  server_addr : String
deriving DecidableEq

/-- The command enumeration of main.rs (`enum Command`), one variant per
sub-command, carrying the same argument records as the source. -/
inductive Command where
  | State (args : BaseArgs)
  | Playlists (args : BaseArgs)
  | PlayPause (args : BaseArgs)
  | Play (args : BaseArgs)
  | Pause (args : BaseArgs)
  | VolumeUp (args : BaseArgs)
  | VolumeDown (args : BaseArgs)
  | Volume (args : SetFloatArgs)
  | Mute (args : BaseArgs)
  | Unmute (args : BaseArgs)
  | Seek (args : SetFloatArgs)
  | Next (args : BaseArgs)
  | Previous (args : BaseArgs)
  | RepeatNone (args : BaseArgs)
  | RepeatAll (args : BaseArgs)
  | RepeatSingle (args : BaseArgs)
  | Shuffle (args : BaseArgs)
  | Jumpto (args : SetFloatArgs)
  | Like (args : BaseArgs)
  | Dislike (args : BaseArgs)
  | Open (args : VideoChangeRequestArgs)
deriving DecidableEq

/-- Textual rendering of the `f32` argument spliced into a request body by
`format!`.  The exact digits Rust's float `Display` produces are irrelevant to
every claim, so the rendering is modelled abstractly but deterministically. -/
def ratRepr (q : Rat) : String :=
  toString q.num ++ (if q.den = 1 then "" else "/" ++ toString q.den)

/-- The `open` body splices each option as `"<id>"` when present and as the
JSON literal `null` when absent (main.rs lines 127-128). -/
def optJsonStringLit (v : Option String) : String :=
  match v with
  | some s => "\"" ++ s ++ "\""
  | none => "null"

/-- `Command::get_body` (main.rs lines 104-139): the fixed JSON body of each
POST command; empty for the GET commands. -/
def Command.get_body (c : Command) : String :=
  match c with
  | .State _ => ""
  | .Playlists _ => ""
  | .PlayPause _ => "\x7b\"command\":\"playPause\"\x7d"
  | .Play _ => "\x7b\"command\":\"play\"\x7d"
  | .Pause _ => "\x7b\"command\":\"pause\"\x7d"
  | .VolumeUp _ => "\x7b\"command\":\"volumeUp\"\x7d"
  | .VolumeDown _ => "\x7b\"command\":\"volumeDown\"\x7d"
  | .Volume args => "\x7b\"command\":\"setVolume\", \"data\": " ++ ratRepr args.target ++ "\x7d"
  | .Mute _ => "\x7b\"command\":\"mute\"\x7d"
  | .Unmute _ => "\x7b\"command\":\"unmute\"\x7d"
  | .Seek args => "\x7b\"command\":\"seekTo\", \"data\": " ++ ratRepr args.target ++ "\x7d"
  | .Next _ => "\x7b\"command\":\"next\"\x7d"
  | .Previous _ => "\x7b\"command\":\"previous\"\x7d"
  | .RepeatNone _ => "\x7b\"command\":\"repeatMode\", \"data\": 0\x7d"
  | .RepeatAll _ => "\x7b\"command\":\"repeatMode\", \"data\": 1\x7d"
  | .RepeatSingle _ => "\x7b\"command\":\"repeatMode\", \"data\": 2\x7d"
  | .Shuffle _ => "\x7b\"command\":\"shuffle\"\x7d"
  | .Jumpto args => "\x7b\"command\":\"playQueueIndex\", \"data\": " ++ ratRepr args.target ++ "\x7d"
  | .Like _ => "\x7b\"command\":\"toggleLike\"\x7d"
  | .Dislike _ => "\x7b\"command\":\"toggleDislike\"\x7d"
  | .Open args =>
      "\x7b\"command\":\"changeVideo\", \"data\": \x7b \"videoId\": " ++ optJsonStringLit args.video ++
        ", \"playlistId\": " ++ optJsonStringLit args.playlist ++ " \x7d \x7d"

/-- `Command::get_path` (main.rs lines 140-146): the GET endpoint of the two
read commands, `None` for every POST command. -/
def Command.get_path (c : Command) : Option String :=
  match c with
  | .State _ => some "state"
  | .Playlists _ => some "playlists"
  | _ => none

/-- `Command::is_get_request` (main.rs lines 147-153). -/
def Command.is_get_request (c : Command) : Bool :=
  match c with
  | .State _ => true
  | .Playlists _ => true
  | _ => false

/-- `Command::get_delay` (main.rs lines 155-179). -/
def Command.get_delay (c : Command) : Option String :=
  match c with
  | .State a => a.delay
  | .Playlists a => a.delay
  | .PlayPause a => a.delay
  | .Play a => a.delay
  | .Pause a => a.delay
  | .VolumeUp a => a.delay
  | .VolumeDown a => a.delay
  | .Volume a => a.delay
  | .Mute a => a.delay
  | .Unmute a => a.delay
  | .Seek a => a.delay
  | .Next a => a.delay
  | .Previous a => a.delay
  | .RepeatNone a => a.delay
  | .RepeatAll a => a.delay
  | .RepeatSingle a => a.delay
  | .Shuffle a => a.delay
  | .Jumpto a => a.delay
  | .Like a => a.delay
  | .Dislike a => a.delay
  | .Open a => a.delay

/-- `Command::get_server_addr` (main.rs lines 180-205). -/
def Command.get_server_addr (c : Command) : String :=
  match c with
  | .State a => a.server_addr
  | .Playlists a => a.server_addr
  | .PlayPause a => a.server_addr
  | .Play a => a.server_addr
  | .Pause a => a.server_addr
  | .VolumeUp a => a.server_addr
  | .VolumeDown a => a.server_addr
  | .Volume a => a.server_addr
  | .Mute a => a.server_addr
  | .Unmute a => a.server_addr
  | .Seek a => a.server_addr
  | .Next a => a.server_addr
  | .Previous a => a.server_addr
  | .RepeatNone a => a.server_addr
  | .RepeatAll a => a.server_addr
  | .RepeatSingle a => a.server_addr
  | .Shuffle a => a.server_addr
  | .Jumpto a => a.server_addr
  | .Like a => a.server_addr
  | .Dislike a => a.server_addr
  | .Open a => a.server_addr

/-! ## Token store file -/

/-- Content of the token-store file: either a zero-length file (what
`File::create` leaves; `serde_json` fails to parse it, so it reads as "no
tokens"), or the serialization of a token map written by the program. -/
inductive StoreContent where
  | empty
  | stored (entries : List (String × String))
deriving DecidableEq

/-- The token-store file on disk: its unix permission mode and its content. -/
structure TokenFile where
  mode : Nat
  content : StoreContent
deriving DecidableEq

/-- `read_token_store` (main.rs lines 250-256): read and parse the store file;
any failure (missing file, unparseable content — in particular a zero-length
file) yields `none`. -/
def read_token_store (fs : Option TokenFile) : Option (List (String × String)) :=
  match fs with
  | some ⟨_, .stored m⟩ => some m
  | _ => none

/-- The mode `std::fs::File::create` gives a newly created file: `0o666`
masked by the process umask. -/
def defaultCreateMode (umask : Nat) : Nat :=
  0o666 &&& (0o777 ^^^ umask)

/-- `std::fs::File::create` on the store path: creates the file (with the
process-default mode) if absent, truncates it to zero length (keeping its
mode) if present. -/
def fileCreate (umask : Nat) (fs : Option TokenFile) : Option TokenFile :=
  match fs with
  | none => some ⟨defaultCreateMode umask, .empty⟩
  | some f => some ⟨f.mode, .empty⟩

/-- `File::set_permissions` on the store file (main.rs line 329). -/
def setPermissions (mode : Nat) (fs : Option TokenFile) : Option TokenFile :=
  match fs with
  | some f => some ⟨mode, f.content⟩
  | none => none

/-- Writing the serialized token map through an open handle
(`tkn_file.write(&serde_json::to_vec(&store)...)`). -/
def filePutContent (m : List (String × String)) (fs : Option TokenFile) : Option TokenFile :=
  match fs with
  | some f => some ⟨f.mode, .stored m⟩
  | none => none

/-- `owner_only()` (main.rs lines 492-495): mode `0o600`. -/
def owner_only : Nat := 0o600

/-- `HashMap::remove` on the token map. -/
def removeEntry (k : String) (m : List (String × String)) : List (String × String) :=
  m.filter (fun kv => kv.1 != k)

/-- `HashMap::insert` on the token map (replaces any entry with the same key;
entry order is not observable). -/
def insertEntry (k v : String) (m : List (String × String)) : List (String × String) :=
  (k, v) :: removeEntry k m

/-- main.rs lines 326-331: load the store, and if that fails create the parent
directory, create an empty store file and set its permissions to `0o600`,
starting from an empty map. -/
def ensureStore (umask : Nat) (fs : Option TokenFile) :
    List (String × String) × Option TokenFile :=
  match read_token_store fs with
  | some m => (m, fs)
  | none => ([], setPermissions owner_only (fileCreate umask fs))

/-! ## HTTP model -/

/-- A response body as the program sees it: a JSON tree when
`serde_json::from_str::<Value>` succeeds on the body text, raw text when it
fails. -/
inductive BodyText where
  | json (j : Json)
  | raw (s : String)

/-- The HTTP response delivered by the companion server: its status code, its
`x-ratelimit-reset` header (after `to_str` decoding) and its body. -/
structure Response where
  status : Nat
  xRatelimitReset : Option String
  body : BodyText

/-- `reqwest::StatusCode::is_success`: status in `200..=299`. -/
def statusIsSuccess (s : Nat) : Bool :=
  decide (200 ≤ s) && decide (s < 300)

/-- main.rs line 405: the failure body designates an invalid token when its
`error` field is the string `UNAUTHORIZED`
(`parsed.get("error").map_or(false, |e| e.as_str().map_or(false, |e| e == "UNAUTHORIZED"))`). -/
def isUnauthorizedBody (parsed : Json) : Bool :=
  match parsed.get "error" with
  | some e =>
      match e.as_str with
      | some s => s == "UNAUTHORIZED"
      | none => false
  | none => false

/-- Whether a response body (as text) designates an invalid token. -/
def bodyUnauth (b : BodyText) : Bool :=
  match b with
  | .json parsed => isUnauthorizedBody parsed
  | .raw _ => false

/-- Classifier: the response takes the `UNAUTHORIZED` early-return branch of
`main_logic` (non-429, non-2xx, JSON body with `error = "UNAUTHORIZED"`). -/
def respUnauthorized (resp : Response) : Bool :=
  !(resp.status == 429) && !statusIsSuccess resp.status && bodyUnauth resp.body

/-- Classifier: the response takes the `exit(ERR_COMMAND_FAILED)` branch of
`main_logic` (non-429, non-2xx, body not an `UNAUTHORIZED` JSON object). -/
def respOtherFailure (resp : Response) : Bool :=
  !(resp.status == 429) && !statusIsSuccess resp.status && !bodyUnauth resp.body

inductive HttpMethod where
  | get
  | post
deriving DecidableEq

/-- The single HTTP request a command invocation sends (main.rs lines
382-393). -/
structure HttpRequest where
  method : HttpMethod
  url : String
  authorization : String
  contentType : Option String
  body : Option String
deriving DecidableEq

/-- Request construction from main.rs lines 377-393: the token is trimmed
(line 377) and placed in the `Authorization` header; read commands become a
GET on their path, everything else a POST of `get_body` to `/command`. -/
def buildRequest (cmd : Command) (token : String) : HttpRequest :=
  let token := trimString token
  match cmd.get_path with
  | some path =>
      { method := .get
        url := "http://" ++ cmd.get_server_addr ++ ":9863/api/v1/" ++ path
        authorization := token
        contentType := none
        body := none }
  | none =>
      { method := .post
        url := "http://" ++ cmd.get_server_addr ++ ":9863/api/v1/command"
        authorization := token
        contentType := some "application/json"
        body := some cmd.get_body }

/-! ## The structured response schema (src/statejson.rs)

The decoders below mirror `serde`'s derived `Deserialize` on JSON input: a
struct requires a JSON object (unknown fields ignored), a required field must
be present and decode, a field of type `Option<T>` reads as `None` when the
field is missing or `null`, a `Vec<T>` requires a JSON array of decoding
elements, `#[repr(i8)]` enums (via `serde_repr`) require an integer equal to a
listed discriminant, and the unsigned/size integer types require an integer in
range (floating-point numbers are rejected).  The recursion through
`QueueItemState.counterparts` is driven by a fuel argument; the top-level call
supplies `sizeOf` of the tree, which strictly exceeds its depth, so the fuel
never runs out. -/

inductive PlaybackState where
  | unknown
  | paused
  | playing
  | buffering
deriving DecidableEq

inductive RepeatModeJson where
  | unknown
  | nothing
  | all
  | one
deriving DecidableEq

inductive LikeState where
  | unknown
  | dislike
  | indifferent
  | like
deriving DecidableEq

inductive VideoTypeJson where
  | unknown
  | audio
  | video
  | uploaded
  | podcast
deriving DecidableEq

structure ThumbnailState where
  url : String
  width : Nat
  height : Nat
deriving DecidableEq

structure VideoState where
  author : String
  channelId : String
  title : String
  album : Option String
  albumId : Option String
  likeStatus : Option LikeState
  thumbnails : List ThumbnailState
  durationSeconds : JsonNum
  id : String
  isLive : Option Bool
  videoType : Option VideoTypeJson
  metadataFilled : Option Bool
deriving DecidableEq

inductive QueueItemState where
  | mk (thumbnails : List ThumbnailState) (title author duration : String)
      (selected : Bool) (videoId : String)
      (counterparts : Option (List QueueItemState))

structure QueueState where
  autoplay : Bool
  items : List QueueItemState
  automixItems : List QueueItemState
  isGenerating : Bool
  isInfinite : Bool
  repeatMode : RepeatModeJson
  selectedItemIndex : Int

structure PlayerState where
  trackState : PlaybackState
  videoProgress : JsonNum
  volume : Nat
  adPlaying : Bool
  queue : Option QueueState

structure StateResponse where
  player : PlayerState
  video : Option VideoState
  playlistId : String

/-- `id`/`title` entries of the playlists response (main.rs `PlaylistEntry`). -/
structure PlaylistEntry where
  id : String
  title : String
deriving DecidableEq

def decodeBoolJ (j : Json) : Option Bool :=
  match j with
  | .bool b => some b
  | _ => none

def decodeStrJ (j : Json) : Option String :=
  match j with
  | .str s => some s
  | _ => none

/-- `f32` field: any JSON number (integers are widened, floats accepted). -/
def decodeF32J (j : Json) : Option JsonNum :=
  match j with
  | .num n => some n
  | _ => none

/-- Unsigned integer field with inclusive upper `bound` (`u8`: 255, `u32`:
4294967295): requires a JSON integer in range. -/
def decodeUIntJ (bound : Nat) (j : Json) : Option Nat :=
  match j with
  | .num (.int n) => if 0 ≤ n ∧ n ≤ (bound : Int) then some n.toNat else none
  | _ => none

/-- `isize` field (64-bit): a JSON integer in the `i64` range. -/
def decodeIsizeJ (j : Json) : Option Int :=
  match j with
  | .num (.int n) => if -(2 ^ 63) ≤ n ∧ n < 2 ^ 63 then some n else none
  | _ => none

def decodePlaybackState (j : Json) : Option PlaybackState :=
  match j with
  | .num (.int n) =>
      if n = -1 then some .unknown
      else if n = 0 then some .paused
      else if n = 1 then some .playing
      else if n = 2 then some .buffering
      else none
  | _ => none

def decodeRepeatModeJson (j : Json) : Option RepeatModeJson :=
  match j with
  | .num (.int n) =>
      if n = -1 then some .unknown
      else if n = 0 then some .nothing
      else if n = 1 then some .all
      else if n = 2 then some .one
      else none
  | _ => none

def decodeLikeState (j : Json) : Option LikeState :=
  match j with
  | .num (.int n) =>
      if n = -1 then some .unknown
      else if n = 0 then some .dislike
      else if n = 1 then some .indifferent
      else if n = 2 then some .like
      else none
  | _ => none

def decodeVideoTypeJson (j : Json) : Option VideoTypeJson :=
  match j with
  | .num (.int n) =>
      if n = -1 then some .unknown
      else if n = 0 then some .audio
      else if n = 1 then some .video
      else if n = 2 then some .uploaded
      else if n = 3 then some .podcast
      else none
  | _ => none

/-- An `Option<T>` struct field: missing or `null` reads as `none`; any other
value must decode. -/
def optField (fields : List (String × Json)) (key : String) (dec : Json → Option α) :
    Option (Option α) :=
  match fields.lookup key with
  | none => some none
  | some .null => some none
  | some v => (dec v).map some

/-- A required struct field: must be present and decode. -/
def reqField (fields : List (String × Json)) (key : String) (dec : Json → Option α) :
    Option α :=
  (fields.lookup key).bind dec

/-- A `Vec<T>` field value: a JSON array whose elements all decode. -/
def decodeVec (dec : Json → Option α) (j : Json) : Option (List α) :=
  match j with
  | .arr items => items.mapM dec
  | _ => none

def decodeThumbnail (j : Json) : Option ThumbnailState :=
  match j with
  | .obj fields => do
      let url ← reqField fields "url" decodeStrJ
      let width ← reqField fields "width" (decodeUIntJ 4294967295)
      let height ← reqField fields "height" (decodeUIntJ 4294967295)
      pure ⟨url, width, height⟩
  | _ => none

/-- `QueueItemState` decoder, fuel-indexed for the recursion through
`counterparts`. -/
def decodeQueueItemF : Nat → Json → Option QueueItemState
  | 0, _ => none
  | fuel + 1, .obj fields => do
      let thumbnails ← reqField fields "thumbnails" (decodeVec decodeThumbnail)
      let title ← reqField fields "title" decodeStrJ
      let author ← reqField fields "author" decodeStrJ
      let duration ← reqField fields "duration" decodeStrJ
      let selected ← reqField fields "selected" decodeBoolJ
      let videoId ← reqField fields "videoId" decodeStrJ
      let counterparts ← optField fields "counterparts" (decodeVec (decodeQueueItemF fuel))
      pure (.mk thumbnails title author duration selected videoId counterparts)
  | _ + 1, _ => none

mutual

/-- Node count of a JSON tree; strictly exceeds its depth, so it is a safe
fuel bound for the `counterparts` recursion. -/
def Json.size : Json → Nat
  | .null => 1
  | .bool _ => 1
  | .num _ => 1
  | .str _ => 1
  | .arr items => 1 + Json.sizeList items
  | .obj fields => 1 + Json.sizeFields fields

def Json.sizeList : List Json → Nat
  | [] => 0
  | j :: js => Json.size j + Json.sizeList js

def Json.sizeFields : List (String × Json) → Nat
  | [] => 0
  | f :: fs => Json.size f.2 + Json.sizeFields fs

end

def decodeQueueItem (j : Json) : Option QueueItemState :=
  decodeQueueItemF (Json.size j) j

def decodeQueueState (j : Json) : Option QueueState :=
  match j with
  | .obj fields => do
      let autoplay ← reqField fields "autoplay" decodeBoolJ
      let items ← reqField fields "items" (decodeVec decodeQueueItem)
      let automixItems ← reqField fields "automixItems" (decodeVec decodeQueueItem)
      let isGenerating ← reqField fields "isGenerating" decodeBoolJ
      let isInfinite ← reqField fields "isInfinite" decodeBoolJ
      let repeatMode ← reqField fields "repeatMode" decodeRepeatModeJson
      let selectedItemIndex ← reqField fields "selectedItemIndex" decodeIsizeJ
      pure ⟨autoplay, items, automixItems, isGenerating, isInfinite, repeatMode,
        selectedItemIndex⟩
  | _ => none

def decodeVideoState (j : Json) : Option VideoState :=
  match j with
  | .obj fields => do
      let author ← reqField fields "author" decodeStrJ
      let channelId ← reqField fields "channelId" decodeStrJ
      let title ← reqField fields "title" decodeStrJ
      let album ← optField fields "album" decodeStrJ
      let albumId ← optField fields "albumId" decodeStrJ
      let likeStatus ← optField fields "likeStatus" decodeLikeState
      let thumbnails ← reqField fields "thumbnails" (decodeVec decodeThumbnail)
      let durationSeconds ← reqField fields "durationSeconds" decodeF32J
      let id ← reqField fields "id" decodeStrJ
      let isLive ← optField fields "isLive" decodeBoolJ
      let videoType ← optField fields "videoType" decodeVideoTypeJson
      let metadataFilled ← optField fields "metadataFilled" decodeBoolJ
      pure ⟨author, channelId, title, album, albumId, likeStatus, thumbnails,
        durationSeconds, id, isLive, videoType, metadataFilled⟩
  | _ => none

def decodePlayerState (j : Json) : Option PlayerState :=
  match j with
  | .obj fields => do
      let trackState ← reqField fields "trackState" decodePlaybackState
      let videoProgress ← reqField fields "videoProgress" decodeF32J
      let volume ← reqField fields "volume" (decodeUIntJ 255)
      let adPlaying ← reqField fields "adPlaying" decodeBoolJ
      let queue ← optField fields "queue" decodeQueueState
      pure ⟨trackState, videoProgress, volume, adPlaying, queue⟩
  | _ => none

/-- `serde_json::from_str::<StateResponse>` on an already-parsed JSON tree. -/
def decodeStateResponse (j : Json) : Option StateResponse :=
  match j with
  | .obj fields => do
      let player ← reqField fields "player" decodePlayerState
      let video ← optField fields "video" decodeVideoState
      let playlistId ← reqField fields "playlistId" decodeStrJ
      pure ⟨player, video, playlistId⟩
  | _ => none

def decodePlaylistEntry (j : Json) : Option PlaylistEntry :=
  match j with
  | .obj fields => do
      let id ← reqField fields "id" decodeStrJ
      let title ← reqField fields "title" decodeStrJ
      pure ⟨id, title⟩
  | _ => none

/-- `serde_json::from_str::<Vec<PlaylistEntry>>` on an already-parsed JSON
tree. -/
def decodePlaylists (j : Json) : Option (List PlaylistEntry) :=
  decodeVec decodePlaylistEntry j

/-- A well-formed player-state payload (queue, one item, a counterpart, no
current video) used to exercise the schema decoder on a concrete body. -/
def sampleStateJson : Json :=
  .obj [
    ("player", .obj [
      ("trackState", .num (.int 1)),
      ("videoProgress", .num (.float (mkRat 725 10))),
      ("volume", .num (.int 50)),
      ("adPlaying", .bool false),
      ("queue", .obj [
        ("autoplay", .bool true),
        ("items", .arr [.obj [
          ("thumbnails", .arr [.obj [
            ("url", .str "http://img.example/1.jpg"),
            ("width", .num (.int 60)),
            ("height", .num (.int 60))]]),
          ("title", .str "Song A"),
          ("author", .str "Artist"),
          ("duration", .str "3:20"),
          ("selected", .bool true),
          ("videoId", .str "vid1"),
          ("counterparts", .arr [.obj [
            ("thumbnails", .arr []),
            ("title", .str "Song A (alt)"),
            ("author", .str "Artist"),
            ("duration", .str "3:20"),
            ("selected", .bool false),
            ("videoId", .str "vid1alt")]])]]),
        ("automixItems", .arr []),
        ("isGenerating", .bool false),
        ("isInfinite", .bool false),
        ("repeatMode", .num (.int 0)),
        ("selectedItemIndex", .num (.int 0))])]),
    ("video", .null),
    ("playlistId", .str "PL123")]

/-! ## Response interpretation (`main_logic`, main.rs lines 376-488) -/

/-- Which of the three rendering tiers a successful read-command body lands
in: the structured schema, generic pretty-printed JSON, or raw text. -/
inductive RenderTier where
  | schemaRender
  | genericJson
  | rawText
deriving DecidableEq

/-- The rendering of a successful read response (main.rs lines 424-485):
`state` tries `StateResponse`, `playlists` tries `Vec<PlaylistEntry>`; a
schema-parse failure falls back to pretty-printed JSON and a JSON-parse
failure to raw text.  (The source's unreachable `_` arm has only the latter
two tiers.) -/
def renderRead (cmd : Command) (body : BodyText) : RenderTier :=
  match cmd with
  | .State _ =>
      match body with
      | .json j => if (decodeStateResponse j).isSome then .schemaRender else .genericJson
      | .raw _ => .rawText
  | .Playlists _ =>
      match body with
      | .json j => if (decodePlaylists j).isSome then .schemaRender else .genericJson
      | .raw _ => .rawText
  | _ =>
      match body with
      | .json _ => .genericJson
      | .raw _ => .rawText

/-- Whether the body of a successful read command parses against that
command's structured schema (`StateResponse` for `state`,
`Vec<PlaylistEntry>` for `playlists`). -/
def schemaDecoded (cmd : Command) (j : Json) : Bool :=
  match cmd with
  | .State _ => (decodeStateResponse j).isSome
  | .Playlists _ => (decodePlaylists j).isSome
  | _ => false

/-- How `main_logic` ends: a `return` of its boolean (`true` means the token
was valid and may be stored), or `std::process::exit(n)`. -/
inductive MainLogicRes where
  | returned (tokenValid : Bool)
  | exited (code : Nat)
deriving DecidableEq

/-- Everything observable about one `main_logic` run: the request it sent, the
store file it left behind, the rate-limit diagnostics it printed (only the
429 branch's lines are tracked), the rendering tier of a read response, and
how it ended. -/
structure LogicResult where
  request : HttpRequest
  fs : Option TokenFile
  stderrLines : List String
  render : Option RenderTier
  res : MainLogicRes

/-- `main_logic` (main.rs lines 376-488) over the store file `fs` and the
server's response `resp`:

* status 429: print the rate-limit message using the `x-ratelimit-reset`
  header (default `"5"`), return `true`;
* other non-2xx: if the body is JSON whose `error` is `"UNAUTHORIZED"`,
  truncate the store file (`File::create`, line 409), re-read it, on a
  successful re-read write back the map minus this server's entry, and return
  `false`; otherwise `std::process::exit(2)`;
* 2xx on a read command: render the body (three-tier fallback) and return
  `true`; 2xx otherwise: return `true`.

The pre-request delay and the unmodelled `eprintln` diagnostics do not touch
the store or the exit status. -/
def main_logic (umask : Nat) (cmd : Command) (token : String) (fs : Option TokenFile)
    (resp : Response) : LogicResult :=
  let req := buildRequest cmd token
  if resp.status == 429 then
    { request := req
      fs := fs
      stderrLines := ["Rate limit exceeded",
        "Wait " ++ resp.xRatelimitReset.getD "5" ++ " seconds before submitting another request"]
      render := none
      res := .returned true }
  else if !statusIsSuccess resp.status then
    match resp.body with
    | .json parsed =>
        if isUnauthorizedBody parsed then
          let fs1 := fileCreate umask fs
          match read_token_store fs1 with
          | some store =>
              { request := req
                fs := filePutContent (removeEntry cmd.get_server_addr store) fs1
                stderrLines := []
                render := none
                res := .returned false }
          | none =>
              { request := req, fs := fs1, stderrLines := [], render := none
                res := .returned false }
        else
          { request := req, fs := fs, stderrLines := [], render := none, res := .exited 2 }
    | .raw _ =>
        { request := req, fs := fs, stderrLines := [], render := none, res := .exited 2 }
  else if cmd.is_get_request then
    { request := req, fs := fs, stderrLines := [], render := some (renderRead cmd resp.body)
      res := .returned true }
  else
    { request := req, fs := fs, stderrLines := [], render := none, res := .returned true }

/-! ## The top-level flow (`main`, main.rs lines 294-372) -/

/-- How the whole process ends: falling off `main` (exit status 0) or an
explicit `std::process::exit`. -/
inductive ProcExit where
  | normal
  | code (n : Nat)
deriving DecidableEq

def procExitOf (r : MainLogicRes) : ProcExit :=
  match r with
  | .returned _ => .normal
  | .exited n => .code n

/-- The status codes and issued token of the two pairing exchanges
(`auth/requestcode` and `auth/request`); the program only inspects whether
each status is `200 OK` and the `token` payload. -/
structure PairingEnv where
  codeStatus : Nat
  tokenStatus : Nat
  token : String

/-- main.rs lines 320-323: `open` without `--video` and `--playlist` is
rejected before any network traffic. -/
def openRejected (cmd : Command) : Bool :=
  match cmd with
  | .Open args => args.video.isNone && args.playlist.isNone
  | _ => false

/-- `main` after command-line parsing (main.rs lines 320-372):

* reject `open` with neither option (plain `return`);
* load the store, creating it (mode `0o600`) when the load fails (lines
  326-331);
* re-read the store and remove this server's entry in memory (line 332); when
  a token is found run `main_logic` with it and `return`, discarding its
  boolean;
* otherwise run the pairing flow; a non-200 on either exchange is a plain
  `return`; on success insert the new token into the in-memory map, truncate
  the store file (`File::create`, line 368), run `main_logic`, and write the
  serialized map through the open handle only when it returned `true`. -/
def main_after_parse (umask : Nat) (cmd : Command) (fs0 : Option TokenFile)
    (pair : PairingEnv) (resp : Response) : Option TokenFile × ProcExit :=
  if openRejected cmd then (fs0, .normal)
  else
    let s := ensureStore umask fs0
    match (read_token_store s.2).bind (fun m => m.lookup cmd.get_server_addr) with
    | some token =>
        let r := main_logic umask cmd token s.2 resp
        (r.fs, procExitOf r.res)
    | none =>
        if !(pair.codeStatus == 200) then (s.2, .normal)
        else if !(pair.tokenStatus == 200) then (s.2, .normal)
        else
          let store1 := insertEntry cmd.get_server_addr pair.token s.1
          let fs2 := fileCreate umask s.2
          let r := main_logic umask cmd pair.token fs2 resp
          match r.res with
          | .returned true => (filePutContent store1 r.fs, .normal)
          | .returned false => (r.fs, .normal)
          | .exited n => (r.fs, .code n)

/-! ## Command-line resolution (main.rs lines 296-319)

The parsing of the argument vector itself is done by the external `arg`
crate, which the specification excludes as a collaborator.  `from_args` below
is modelled from the spec's command table: the first token selects the
sub-command by its kebab-case name and the remainder is parsed against that
variant's argument record (`--delay`/`-p` and `--server`/`-s` taking a value,
`--script`/`-c` a switch, `--video`/`-v` and `--playlist`/`-l` taking a
value, and a required numeric positional for `volume`/`seek`/`jumpto`). -/

/-- Digit run to a natural number. -/
def digitsVal (l : List Char) : Nat :=
  l.foldl (fun acc c => 10 * acc + (c.toNat - 48)) 0

/-- Modelled from the spec: the numeric-literal subset of `f32::from_str`
accepted for `volume <target>`, `seek <seconds>`, `jumpto <index>` — an
optional sign, then digits with at most one decimal point (exponent and
inf/NaN forms are not modelled). -/
def parseFloatLit (s : String) : Option Rat :=
  let core (l : List Char) : Option Rat :=
    let intPart := l.takeWhile (·.isDigit)
    let rest := l.dropWhile (·.isDigit)
    match rest with
    | [] => if intPart.isEmpty then none else some ((digitsVal intPart : Int) : Rat)
    | '.' :: frac =>
        if frac.all (·.isDigit) && !(intPart.isEmpty && frac.isEmpty) then
          some (mkRat (digitsVal intPart * 10 ^ frac.length + digitsVal frac) (10 ^ frac.length))
        else none
    | _ => none
  match s.data with
  | '+' :: l => core l
  | '-' :: l => (core l).map Neg.neg
  | l => core l

/-- Modelled from the spec: flag parsing for the `BaseArgs` record. -/
def parseBaseArgs : List String → BaseArgs → Option BaseArgs
  | [], acc => some acc
  | "-p" :: v :: rest, acc => parseBaseArgs rest { acc with delay := some v }
  | "--delay" :: v :: rest, acc => parseBaseArgs rest { acc with delay := some v }
  | "-s" :: v :: rest, acc => parseBaseArgs rest { acc with server_addr := v }
  | "--server" :: v :: rest, acc => parseBaseArgs rest { acc with server_addr := v }
  | "-c" :: rest, acc => parseBaseArgs rest { acc with script_mode := true }
  | "--script" :: rest, acc => parseBaseArgs rest { acc with script_mode := true }
  | _, _ => none

/-- Modelled from the spec: flag parsing for the `SetFloatArgs` record (one
required numeric positional). -/
def parseSetFloatArgs : List String → Option Rat → Option String → String → Option SetFloatArgs
  | [], some t, d, s => some ⟨t, d, s⟩
  | [], none, _, _ => none
  | "-p" :: v :: rest, t, _, s => parseSetFloatArgs rest t (some v) s
  | "--delay" :: v :: rest, t, _, s => parseSetFloatArgs rest t (some v) s
  | "-s" :: v :: rest, t, d, _ => parseSetFloatArgs rest t d v
  | "--server" :: v :: rest, t, d, _ => parseSetFloatArgs rest t d v
  | tok :: rest, none, d, s => (parseFloatLit tok).bind fun q => parseSetFloatArgs rest (some q) d s
  | _ :: _, some _, _, _ => none

/-- Modelled from the spec: flag parsing for the `VideoChangeRequestArgs`
record. -/
def parseVideoChangeArgs : List String → VideoChangeRequestArgs → Option VideoChangeRequestArgs
  | [], acc => some acc
  | "-v" :: v :: rest, acc => parseVideoChangeArgs rest { acc with video := some v }
  | "--video" :: v :: rest, acc => parseVideoChangeArgs rest { acc with video := some v }
  | "-l" :: v :: rest, acc => parseVideoChangeArgs rest { acc with playlist := some v }
  | "--playlist" :: v :: rest, acc => parseVideoChangeArgs rest { acc with playlist := some v }
  | "-p" :: v :: rest, acc => parseVideoChangeArgs rest { acc with delay := some v }
  | "--delay" :: v :: rest, acc => parseVideoChangeArgs rest { acc with delay := some v }
  | "-s" :: v :: rest, acc => parseVideoChangeArgs rest { acc with server_addr := v }
  | "--server" :: v :: rest, acc => parseVideoChangeArgs rest { acc with server_addr := v }
  | _, _ => none

/-- Modelled from the spec: `Command::from_args` of the external `arg` crate —
kebab-case sub-command dispatch plus per-variant flag parsing. -/
def from_args (args : List String) : Option Command :=
  match args with
  | [] => none
  | name :: rest =>
      match name with
      | "state" => (parseBaseArgs rest defaultBaseArgs).map .State
      | "playlists" => (parseBaseArgs rest defaultBaseArgs).map .Playlists
      | "play-pause" => (parseBaseArgs rest defaultBaseArgs).map .PlayPause
      | "play" => (parseBaseArgs rest defaultBaseArgs).map .Play
      | "pause" => (parseBaseArgs rest defaultBaseArgs).map .Pause
      | "volume-up" => (parseBaseArgs rest defaultBaseArgs).map .VolumeUp
      | "volume-down" => (parseBaseArgs rest defaultBaseArgs).map .VolumeDown
      | "volume" => (parseSetFloatArgs rest none none "localhost").map .Volume
      | "mute" => (parseBaseArgs rest defaultBaseArgs).map .Mute
      | "unmute" => (parseBaseArgs rest defaultBaseArgs).map .Unmute
      | "seek" => (parseSetFloatArgs rest none none "localhost").map .Seek
      | "next" => (parseBaseArgs rest defaultBaseArgs).map .Next
      | "previous" => (parseBaseArgs rest defaultBaseArgs).map .Previous
      | "repeat-none" => (parseBaseArgs rest defaultBaseArgs).map .RepeatNone
      | "repeat-all" => (parseBaseArgs rest defaultBaseArgs).map .RepeatAll
      | "repeat-single" => (parseBaseArgs rest defaultBaseArgs).map .RepeatSingle
      | "shuffle" => (parseBaseArgs rest defaultBaseArgs).map .Shuffle
      | "jumpto" => (parseSetFloatArgs rest none none "localhost").map .Jumpto
      | "like" => (parseBaseArgs rest defaultBaseArgs).map .Like
      | "dislike" => (parseBaseArgs rest defaultBaseArgs).map .Dislike
      | "open" => (parseVideoChangeArgs rest ⟨none, none, none, "localhost"⟩).map .Open
      | _ => none

/-- main.rs line 298: `-h`/`--help` anywhere prints the help text and
returns. -/
def helpRequested (args : List String) : Bool :=
  args.any (fun a => a == "-h" || a == "--help")

/-- main.rs lines 302-305: when no argument is command-like (every argument
starts with `-`), insert `play-pause` at the front. -/
def preprocessArgs (args : List String) : List String :=
  if args.all (fun s => s.startsWith "-") then "play-pause" :: args else args

/-- The complete process over one invocation: help short-circuit, the
play-pause default, command parsing (exit 1 on failure, main.rs lines
306-319), then `main_after_parse`. -/
def fullMain (umask : Nat) (args : List String) (fs0 : Option TokenFile)
    (pair : PairingEnv) (resp : Response) : Option TokenFile × ProcExit :=
  if helpRequested args then (fs0, .normal)
  else
    match from_args (preprocessArgs args) with
    | none => (fs0, .code 1)
    | some cmd => main_after_parse umask cmd fs0 pair resp

/-- A token was already stored for this command's server: the store file
parses and holds an entry for the server address.  (When it holds, the flow
reaches `main_logic` directly; otherwise the pairing flow runs first.) -/
def tokenAvailable (cmd : Command) (fs0 : Option TokenFile) : Bool :=
  match read_token_store fs0 with
  | some m => (m.lookup cmd.get_server_addr).isSome
  | none => false

/-- Both pairing exchanges answered `200 OK`. -/
def pairingSucceeds (pair : PairingEnv) : Bool :=
  pair.codeStatus == 200 && pair.tokenStatus == 200

/-- The invocation reaches the command round-trip: either a token was stored,
or the pairing flow succeeded. -/
def commandSent (cmd : Command) (fs0 : Option TokenFile) (pair : PairingEnv) : Bool :=
  tokenAvailable cmd fs0 || pairingSucceeds pair

/-! ## The store-file syscall trace of the creation path -/

/-- The filesystem operations main.rs applies to the store file. -/
inductive FsEvent where
  | createDirAll
  | createFile
  | setPerm (mode : Nat)
  | writeContent (entries : List (String × String))
deriving DecidableEq

def stepEvent (umask : Nat) (fs : Option TokenFile) (e : FsEvent) : Option TokenFile :=
  match e with
  | .createDirAll => fs
  | .createFile => fileCreate umask fs
  | .setPerm m => setPermissions m fs
  | .writeContent m => filePutContent m fs

def runEvents (umask : Nat) (fs : Option TokenFile) (tr : List FsEvent) : Option TokenFile :=
  tr.foldl (stepEvent umask) fs

/-- The store-creation path (main.rs lines 327-329), the only place the store
file ever comes into existence (both on first run and after an external
deletion): `create_dir_all`, then `File::create`, then
`set_permissions(0o600)`. -/
def ensureStoreTrace : List FsEvent :=
  [.createDirAll, .createFile, .setPerm owner_only]

def isWriteEvent (e : FsEvent) : Bool :=
  match e with
  | .writeContent _ => true
  | _ => false

/-- Claim C3 as stated: on the creation path the file has mode `0o600` from
the instant it is created (already right after the `File::create` event, for
every umask), and no permission-setting event follows creation. -/
def c3ClaimStated : Prop :=
  (∀ umask : Nat,
    runEvents umask none (ensureStoreTrace.take 2) = some ⟨owner_only, .empty⟩) ∧
  (∀ i j : Nat, i < j → ensureStoreTrace.get? i = some .createFile →
    ∀ m : Nat, ¬ ensureStoreTrace.get? j = some (.setPerm m))

/-! ## Shared lemmas -/

theorem dropWhile_dropWhile_self (p : Char → Bool) (l : List Char) :
    (l.dropWhile p).dropWhile p = l.dropWhile p := by
  induction l with
  | nil => rfl
  | cons a l ih =>
    cases h : p a with
    | true => simpa [List.dropWhile_cons, h] using ih
    | false => simp [List.dropWhile_cons, h]

theorem exists_append_dropWhile (p : Char → Bool) (l : List Char) :
    ∃ t, t ++ l.dropWhile p = l := by
  induction l with
  | nil => exact ⟨[], rfl⟩
  | cons a l ih =>
    cases h : p a with
    | true =>
      obtain ⟨t, ht⟩ := ih
      exact ⟨a :: t, by simp [List.dropWhile_cons, h, ht]⟩
    | false => exact ⟨[], by simp [List.dropWhile_cons, h]⟩

theorem head_false_of_dropWhile (p : Char → Bool) (l : List Char) (a : Char)
    (t : List Char) (h : l.dropWhile p = a :: t) : p a = false := by
  induction l with
  | nil => simp [List.dropWhile] at h
  | cons b l ih =>
    rw [List.dropWhile_cons] at h
    cases hb : p b with
    | true => rw [hb] at h; simp at h; exact ih h
    | false => rw [hb] at h; simp at h; rw [← h.1]; exact hb

theorem trimChars_trimChars (l : List Char) : trimChars (trimChars l) = trimChars l := by
  unfold trimChars
  have hB : ((((l.dropWhile isRustWhitespace).reverse.dropWhile
      isRustWhitespace).reverse).reverse).dropWhile isRustWhitespace
      = ((l.dropWhile isRustWhitespace).reverse.dropWhile isRustWhitespace) := by
    rw [List.reverse_reverse]
    exact dropWhile_dropWhile_self ..
  have hA : (((l.dropWhile isRustWhitespace).reverse.dropWhile
      isRustWhitespace).reverse).dropWhile isRustWhitespace
      = ((l.dropWhile isRustWhitespace).reverse.dropWhile isRustWhitespace).reverse := by
    obtain ⟨t, ht⟩ := exists_append_dropWhile isRustWhitespace
      (l.dropWhile isRustWhitespace).reverse
    cases hr : ((l.dropWhile isRustWhitespace).reverse.dropWhile isRustWhitespace).reverse with
    | nil => simp [hr]
    | cons a r' =>
      have hd : l.dropWhile isRustWhitespace = a :: (r' ++ t.reverse) := by
        have : (t ++ (l.dropWhile isRustWhitespace).reverse.dropWhile
            isRustWhitespace).reverse = l.dropWhile isRustWhitespace := by
          rw [ht, List.reverse_reverse]
        rw [← this, List.reverse_append]
        have : ((l.dropWhile isRustWhitespace).reverse.dropWhile
            isRustWhitespace).reverse = a :: r' := hr
        rw [this]
        simp
      have ha : isRustWhitespace a = false :=
        head_false_of_dropWhile isRustWhitespace l a (r' ++ t.reverse) hd
      simp [List.dropWhile_cons, ha]
  rw [hA, hB]

theorem trimString_trimString (s : String) : trimString (trimString s) = trimString s := by
  unfold trimString
  exact congrArg String.mk (trimChars_trimChars s.data)

/-- `File::create` always leaves an unparseable (zero-length) store file, so
the re-read inside the unauthorized branch can never succeed. -/
theorem read_token_store_fileCreate (umask : Nat) (fs : Option TokenFile) :
    read_token_store (fileCreate umask fs) = none := by
  cases fs with
  | none => rfl
  | some f => rfl

theorem read_token_store_after_ensure_create (umask : Nat) (fs : Option TokenFile) :
    read_token_store (setPermissions owner_only (fileCreate umask fs)) = none := by
  cases fs with
  | none => rfl
  | some f => rfl

/-- `main_logic` never touches its request: it is `buildRequest` of the
command and token. -/
theorem main_logic_request (umask : Nat) (cmd : Command) (token : String)
    (fs : Option TokenFile) (resp : Response) :
    (main_logic umask cmd token fs resp).request = buildRequest cmd token := by
  unfold main_logic
  cases h429 : (resp.status == 429) with
  | true => simp [h429]
  | false =>
    cases hs : statusIsSuccess resp.status with
    | true => cases hg : cmd.is_get_request <;> simp [h429, hs, hg]
    | false =>
      cases hb : resp.body with
      | json parsed =>
        cases hu : isUnauthorizedBody parsed with
        | true => simp [h429, hs, hb, hu, read_token_store_fileCreate]
        | false => simp [h429, hs, hb, hu]
      | raw s => simp [h429, hs, hb]

/-- How `main_logic` ends, as a function of the response classification:
`exit(2)` exactly on an other-failure response, `return false` exactly on an
unauthorized response, `return true` otherwise. -/
theorem main_logic_res (umask : Nat) (cmd : Command) (token : String)
    (fs : Option TokenFile) (resp : Response) :
    (main_logic umask cmd token fs resp).res =
      (if respOtherFailure resp then .exited 2
       else if respUnauthorized resp then .returned false
       else .returned true) := by
  unfold main_logic respOtherFailure respUnauthorized
  cases h429 : (resp.status == 429) with
  | true => simp [h429]
  | false =>
    cases hs : statusIsSuccess resp.status with
    | true => cases hg : cmd.is_get_request <;> simp [h429, hs, hg]
    | false =>
      cases hb : resp.body with
      | json parsed =>
        cases hu : isUnauthorizedBody parsed with
        | true => simp [h429, hs, hb, hu, bodyUnauth, read_token_store_fileCreate]
        | false => simp [h429, hs, hb, hu, bodyUnauth]
      | raw s => simp [h429, hs, hb, bodyUnauth]

/-- What `main_logic` does to the store file: it truncates it on an
unauthorized response (the re-read after truncation necessarily fails, so the
write-back of the pruned map is dead code) and leaves it alone otherwise. -/
theorem main_logic_fs (umask : Nat) (cmd : Command) (token : String)
    (fs : Option TokenFile) (resp : Response) :
    (main_logic umask cmd token fs resp).fs =
      (if respUnauthorized resp then fileCreate umask fs else fs) := by
  unfold main_logic respUnauthorized
  cases h429 : (resp.status == 429) with
  | true => simp [h429]
  | false =>
    cases hs : statusIsSuccess resp.status with
    | true => cases hg : cmd.is_get_request <;> simp [h429, hs, hg]
    | false =>
      cases hb : resp.body with
      | json parsed =>
        cases hu : isUnauthorizedBody parsed with
        | true => simp [h429, hs, hb, hu, bodyUnauth, read_token_store_fileCreate]
        | false => simp [h429, hs, hb, hu, bodyUnauth]
      | raw s => simp [h429, hs, hb, bodyUnauth]

/-- The exit status of the post-parse flow, as a function of the inputs: exit
code 2 exactly when the invocation was not rejected, the command round-trip
happened, and its response was a non-429, non-2xx, non-unauthorized failure;
status 0 (falling off `main`) otherwise. -/
theorem main_after_parse_exit (umask : Nat) (cmd : Command) (fs0 : Option TokenFile)
    (pair : PairingEnv) (resp : Response) :
    (main_after_parse umask cmd fs0 pair resp).2 =
      (if !openRejected cmd && commandSent cmd fs0 pair && respOtherFailure resp
       then .code 2 else .normal) := by
  unfold main_after_parse
  cases ho : openRejected cmd with
  | true => simp [ho]
  | false =>
    cases hr : read_token_store fs0 with
    | some m =>
      have hens : ensureStore umask fs0 = (m, fs0) := by
        unfold ensureStore; rw [hr]
      cases hl : List.lookup cmd.get_server_addr m with
      | some tok =>
        have hca : commandSent cmd fs0 pair = true := by
          simp [commandSent, tokenAvailable, hr, hl]
        simp only [ho, Bool.false_eq_true, if_false, hens, hr, Option.some_bind, hl,
          main_logic_res, hca, Bool.not_false, Bool.true_and]
        cases hof : respOtherFailure resp with
        | true => simp [hof, procExitOf]
        | false => cases hu : respUnauthorized resp <;> simp [hof, hu, procExitOf]
      | none =>
        have hta : tokenAvailable cmd fs0 = false := by
          simp [tokenAvailable, hr, hl]
        simp only [ho, Bool.false_eq_true, if_false, hens, hr, Option.some_bind, hl]
        cases hc : (pair.codeStatus == 200) with
        | false => simp [hc, commandSent, hta, pairingSucceeds]
        | true =>
          cases ht : (pair.tokenStatus == 200) with
          | false => simp [hc, ht, commandSent, hta, pairingSucceeds]
          | true =>
            have hcs : commandSent cmd fs0 pair = true := by
              simp [commandSent, hta, pairingSucceeds, hc, ht]
            simp only [hc, ht, Bool.not_true, Bool.false_eq_true, if_false,
              main_logic_res, hcs, Bool.not_false, Bool.true_and]
            cases hof : respOtherFailure resp with
            | true => simp [hof]
            | false => cases hu : respUnauthorized resp <;> simp [hof, hu]
    | none =>
      have hens : ensureStore umask fs0 =
          ([], setPermissions owner_only (fileCreate umask fs0)) := by
        unfold ensureStore; rw [hr]
      have hta : tokenAvailable cmd fs0 = false := by
        simp [tokenAvailable, hr]
      simp only [ho, Bool.false_eq_true, if_false, hens,
        read_token_store_after_ensure_create, Option.none_bind]
      cases hc : (pair.codeStatus == 200) with
      | false => simp [hc, commandSent, hta, pairingSucceeds]
      | true =>
        cases ht : (pair.tokenStatus == 200) with
        | false => simp [hc, ht, commandSent, hta, pairingSucceeds]
        | true =>
          have hcs : commandSent cmd fs0 pair = true := by
            simp [commandSent, hta, pairingSucceeds, hc, ht]
          simp only [hc, ht, Bool.not_true, Bool.false_eq_true, if_false,
            main_logic_res, hcs, Bool.not_false, Bool.true_and]
          cases hof : respOtherFailure resp with
          | true => simp [hof]
          | false => cases hu : respUnauthorized resp <;> simp [hof, hu]

/-! ## Claims -/

/-- C4: for every HTTP 429 response, the rate-limit diagnostic contains the
`x-ratelimit-reset` header value when present and the string `"5"` when
absent, the store file is untouched, and the execution step returns `true`
(the token is considered valid and kept). -/
theorem c4_rate_limit_output_and_token_kept (umask : Nat) (cmd : Command)
    (token : String) (fs : Option TokenFile) (resp : Response)
    (h : resp.status = 429) :
    (main_logic umask cmd token fs resp).res = .returned true ∧
    (main_logic umask cmd token fs resp).fs = fs ∧
    ∃ pre post, (main_logic umask cmd token fs resp).stderrLines =
      ["Rate limit exceeded", pre ++ resp.xRatelimitReset.getD "5" ++ post] := by
  have h429 : (resp.status == 429) = true := by simp [h]
  refine ⟨?_, ?_, "Wait ", " seconds before submitting another request", ?_⟩ <;>
    simp [main_logic, h429]

/-- C4 witness: a concrete 429 response with header value `"12"` — the
diagnostic contains `"12"` and the result is `returned true`. -/
theorem c4_witness :
    (main_logic 0 (.PlayPause defaultBaseArgs) "tok" none
        ⟨429, some "12", .raw "\x7b\x7d"⟩).res = .returned true ∧
    (main_logic 0 (.PlayPause defaultBaseArgs) "tok" none
        ⟨429, some "12", .raw "\x7b\x7d"⟩).fs = none ∧
    ∃ pre post, (main_logic 0 (.PlayPause defaultBaseArgs) "tok" none
        ⟨429, some "12", .raw "\x7b\x7d"⟩).stderrLines =
      ["Rate limit exceeded", pre ++ "12" ++ post] :=
  c4_rate_limit_output_and_token_kept 0 (.PlayPause defaultBaseArgs) "tok" none
    ⟨429, some "12", .raw "\x7b\x7d"⟩ rfl

/-- C7: an invocation with no command-like argument and no flags (an empty
argument vector) resolves to the play-pause command, whose request is the
POST of `{"command":"playPause"}` to the command endpoint. -/
theorem c7_default_play_pause :
    from_args (preprocessArgs []) = some (.PlayPause defaultBaseArgs) ∧
    ∀ token : String,
      (buildRequest (.PlayPause defaultBaseArgs) token).method = .post ∧
      (buildRequest (.PlayPause defaultBaseArgs) token).url =
        "http://localhost:9863/api/v1/command" ∧
      (buildRequest (.PlayPause defaultBaseArgs) token).body =
        some "\x7b\"command\":\"playPause\"\x7d" :=
  ⟨rfl, fun _ => ⟨rfl, rfl, rfl⟩⟩

/-- C8: the execution step trims the token before placing it in the
`Authorization` header, so a whitespace-padded token produces exactly the
request of its trimmed form. -/
theorem c8_token_trimmed (cmd : Command) (token : String) :
    buildRequest cmd token = buildRequest cmd (trimString token) ∧
    (buildRequest cmd token).authorization = trimString token := by
  unfold buildRequest
  cases h : cmd.get_path with
  | none => simp [trimString_trimString]
  | some path => simp [trimString_trimString]

/-- C9: every `open` body contains a `data` object with both the `videoId`
and the `playlistId` key, an absent option being serialized as the JSON
literal `null` rather than omitted. -/
theorem c9_open_body_keys (v p d : Option String) (s : String)
    (h : v.isSome = true ∨ p.isSome = true) :
    ∃ V P, (Command.Open ⟨v, p, d, s⟩).get_body =
      "\x7b\"command\":\"changeVideo\", \"data\": \x7b \"videoId\": " ++ V ++
        ", \"playlistId\": " ++ P ++ " \x7d \x7d" ∧
      (match v with | some sv => V = "\"" ++ sv ++ "\"" | none => V = "null") ∧
      (match p with | some sp => P = "\"" ++ sp ++ "\"" | none => P = "null") :=
  ⟨optJsonStringLit v, optJsonStringLit p, rfl, by cases v <;> rfl, by cases p <;> rfl⟩

/-- C9 witness: `open --video dQw4w9WgXcQ` with no playlist — the body holds
the quoted video id and a literal `null` playlist id. -/
theorem c9_witness :
    ((some "dQw4w9WgXcQ" : Option String).isSome = true ∨
      (none : Option String).isSome = true) ∧
    ∃ V P, (Command.Open ⟨some "dQw4w9WgXcQ", none, none, "localhost"⟩).get_body =
      "\x7b\"command\":\"changeVideo\", \"data\": \x7b \"videoId\": " ++ V ++
        ", \"playlistId\": " ++ P ++ " \x7d \x7d" ∧
      V = "\"" ++ "dQw4w9WgXcQ" ++ "\"" ∧ P = "null" :=
  ⟨Or.inl rfl, c9_open_body_keys (some "dQw4w9WgXcQ") none none "localhost" (Or.inl rfl)⟩

/-- C10: with a token already stored for the requested server, an invocation
whose response is a success or a 429 leaves the store file exactly as it was
(the lookup's removal stays in memory), and more generally the file is only
ever written on the unauthorized outcome. -/
theorem c10_store_untouched_unless_unauthorized (umask : Nat) (cmd : Command)
    (fs0 : Option TokenFile) (pair : PairingEnv) (resp : Response)
    (m : List (String × String)) (tok : String)
    (hm : read_token_store fs0 = some m)
    (htok : m.lookup cmd.get_server_addr = some tok) :
    ((statusIsSuccess resp.status = true ∨ resp.status = 429) →
      (main_after_parse umask cmd fs0 pair resp).1 = fs0) ∧
    (respUnauthorized resp = false →
      (main_after_parse umask cmd fs0 pair resp).1 = fs0) := by
  have key : respUnauthorized resp = false →
      (main_after_parse umask cmd fs0 pair resp).1 = fs0 := by
    intro hnu
    unfold main_after_parse
    cases ho : openRejected cmd with
    | true => simp [ho]
    | false =>
      have hens : ensureStore umask fs0 = (m, fs0) := by
        unfold ensureStore; rw [hm]
      simp only [ho, Bool.false_eq_true, if_false, hens, hm, Option.some_bind, htok,
        main_logic_fs, hnu]
  refine ⟨?_, key⟩
  rintro (hs | h429)
  · exact key (by simp [respUnauthorized, hs])
  · exact key (by simp [respUnauthorized, h429])

/-- C10 witness: a stored token for `localhost` and a plain 200 response —
the store file afterwards is the store file before. -/
theorem c10_witness :
    (main_after_parse 0o022 (.PlayPause defaultBaseArgs)
        (some ⟨0o600, .stored [("localhost", "token1")]⟩) ⟨0, 0, ""⟩
        ⟨200, none, .raw ""⟩).1 = some ⟨0o600, .stored [("localhost", "token1")]⟩ :=
  (c10_store_untouched_unless_unauthorized 0o022 (.PlayPause defaultBaseArgs)
    (some ⟨0o600, .stored [("localhost", "token1")]⟩) ⟨0, 0, ""⟩
    ⟨200, none, .raw ""⟩ [("localhost", "token1")] "token1" rfl rfl).1
    (Or.inl rfl)

/-- C1: the claim says an unauthorized response evicts exactly the requesting
server's entry and keeps every other server's entry in the store file.  The
code instead opens the store file with `File::create` (truncating it) before
re-reading it, so the re-read fails, nothing is written back, and the file is
left empty: the entry for `192.168.1.5` present before the request is gone
afterwards. -/
theorem c1_unauthorized_eviction_truncates_store :
    (main_after_parse 0o022 (.PlayPause defaultBaseArgs)
        (some ⟨0o600, .stored [("localhost", "token1"), ("192.168.1.5", "token2")]⟩)
        ⟨0, 0, ""⟩ ⟨403, none, .json (.obj [("error", .str "UNAUTHORIZED")])⟩)
      = (some ⟨0o600, .empty⟩, .normal) ∧
    read_token_store (main_after_parse 0o022 (.PlayPause defaultBaseArgs)
        (some ⟨0o600, .stored [("localhost", "token1"), ("192.168.1.5", "token2")]⟩)
        ⟨0, 0, ""⟩ ⟨403, none, .json (.obj [("error", .str "UNAUTHORIZED")])⟩).1
      = none := by
  constructor <;> rfl

/-- C2: the claim says that when the first command after pairing does not
succeed, the store file's previous contents are left unchanged.  The code
truncates the store file (`File::create`) *before* running that first
command, so a failing first command leaves the file empty and the previous
entry for `192.168.1.5` is lost. -/
theorem c2_pairing_truncates_before_first_command :
    (main_after_parse 0o022 (.PlayPause defaultBaseArgs)
        (some ⟨0o600, .stored [("192.168.1.5", "token2")]⟩)
        ⟨200, 200, "newtoken"⟩ ⟨500, none, .json (.obj [("error", .str "INTERNAL")])⟩)
      = (some ⟨0o600, .empty⟩, .code 2) ∧
    (main_after_parse 0o022 (.PlayPause defaultBaseArgs)
        (some ⟨0o600, .stored [("192.168.1.5", "token2")]⟩)
        ⟨200, 200, "newtoken"⟩ ⟨500, none, .json (.obj [("error", .str "INTERNAL")])⟩).1
      ≠ some ⟨0o600, .stored [("192.168.1.5", "token2")]⟩ := by
  constructor
  · rfl
  · decide

/-- C3 counterexample: the claim as stated is false — on the creation path
the `set_permissions(0o600)` event strictly follows the `File::create` event
(and with umask `0o022` the file's mode at the instant of creation is
`0o644`, not `0o600`). -/
theorem c3_perm_ordering_counterexample : ¬ c3ClaimStated := by
  intro h
  exact (h.2 1 2 (by omega) (by decide) owner_only) (by decide)

/-- C3 amended: on the single creation path (fresh creation and re-creation
after deletion both run main.rs lines 327-329) the file is created with the
process-default mode, owner-only permissions are applied by the immediately
following step, and no content is written anywhere on that path — so the file
is restrictive before any content exists, but not from the very instant of
creation. -/
theorem c3_perms_applied_after_create_before_content (umask : Nat) :
    runEvents umask none ensureStoreTrace = some ⟨owner_only, .empty⟩ ∧
    runEvents umask none (ensureStoreTrace.take 2) =
      some ⟨defaultCreateMode umask, .empty⟩ ∧
    ensureStoreTrace.get? 1 = some .createFile ∧
    ensureStoreTrace.get? 2 = some (.setPerm owner_only) ∧
    ensureStoreTrace.all (fun e => !isWriteEvent e) = true :=
  ⟨rfl, rfl, rfl, rfl, rfl⟩

/-- C6: on a 2xx response to a read command the program never hard-fails:
`main_logic` returns `true`, leaves the store alone, and renders the body by
exactly the three-tier fallback — the structured schema when it decodes,
generic pretty-printed JSON when only the JSON parse succeeds, raw text when
even that fails. -/
theorem c6_three_tier_render (umask : Nat) (cmd : Command) (token : String)
    (fs : Option TokenFile) (resp : Response)
    (hget : cmd.is_get_request = true)
    (hs : statusIsSuccess resp.status = true) :
    (main_logic umask cmd token fs resp).res = .returned true ∧
    (main_logic umask cmd token fs resp).fs = fs ∧
    (main_logic umask cmd token fs resp).render = some (renderRead cmd resp.body) ∧
    (∀ s, resp.body = .raw s → renderRead cmd resp.body = .rawText) ∧
    (∀ j, resp.body = .json j → schemaDecoded cmd j = true →
      renderRead cmd resp.body = .schemaRender) ∧
    (∀ j, resp.body = .json j → schemaDecoded cmd j = false →
      renderRead cmd resp.body = .genericJson) := by
  have h429 : (resp.status == 429) = false := by
    simp only [statusIsSuccess, Bool.and_eq_true, decide_eq_true_eq] at hs
    simp only [beq_eq_false_iff_ne, ne_eq]
    omega
  refine ⟨?_, ?_, ?_, ?_, ?_, ?_⟩
  · cases hg : cmd.is_get_request <;> simp [main_logic, h429, hs, hg]
  · cases hg : cmd.is_get_request <;> simp [main_logic, h429, hs, hg]
  · simp [main_logic, h429, hs, hget]
  · intro s hb
    cases cmd <;> simp [renderRead, hb]
  · intro j hb hd
    cases cmd <;> simp only [schemaDecoded] at hd <;>
      first
      | exact Bool.noConfusion hd
      | simp [renderRead, hb, hd]
  · intro j hb hd
    cases cmd <;> simp only [schemaDecoded] at hd <;>
      first
      | exact Bool.noConfusion hd
      | simp [renderRead, hb, hd]

/-- C6 witness: a 200 `state` response with a well-formed payload — the
hypotheses hold, and the body in fact lands in the schema tier. -/
theorem c6_witness :
    ((Command.State defaultBaseArgs).is_get_request = true ∧ statusIsSuccess 200 = true) ∧
    ((main_logic 0 (.State defaultBaseArgs) "tok" none
        ⟨200, none, .json sampleStateJson⟩).res = .returned true ∧
      (main_logic 0 (.State defaultBaseArgs) "tok" none
        ⟨200, none, .json sampleStateJson⟩).fs = none ∧
      (main_logic 0 (.State defaultBaseArgs) "tok" none
        ⟨200, none, .json sampleStateJson⟩).render =
        some (renderRead (.State defaultBaseArgs) (.json sampleStateJson)) ∧
      (∀ s, BodyText.json sampleStateJson = .raw s →
        renderRead (.State defaultBaseArgs) (.json sampleStateJson) = .rawText) ∧
      (∀ j, BodyText.json sampleStateJson = .json j →
        schemaDecoded (.State defaultBaseArgs) j = true →
        renderRead (.State defaultBaseArgs) (.json sampleStateJson) = .schemaRender) ∧
      (∀ j, BodyText.json sampleStateJson = .json j →
        schemaDecoded (.State defaultBaseArgs) j = false →
        renderRead (.State defaultBaseArgs) (.json sampleStateJson) = .genericJson)) ∧
    renderRead (.State defaultBaseArgs) (.json sampleStateJson) = .schemaRender :=
  ⟨⟨rfl, rfl⟩,
    c6_three_tier_render 0 (.State defaultBaseArgs) "tok" none
      ⟨200, none, .json sampleStateJson⟩ rfl rfl,
    by decide⟩

/-- C5: the process exits with code 1 exactly on an invalid/unrecognized
command line, with code 2 exactly when the command round-trip happened and
the server answered with a non-2xx, non-429, non-UNAUTHORIZED response, and
ends with status 0 in every other completed case (help, rejected `open`,
failed pairing, rate limiting, and the benign unauthorized eviction
included). -/
theorem c5_exit_codes (umask : Nat) (args : List String) (fs0 : Option TokenFile)
    (pair : PairingEnv) (resp : Response) :
    ((fullMain umask args fs0 pair resp).2 = .code 1 ↔
      (helpRequested args = false ∧ from_args (preprocessArgs args) = none)) ∧
    ((fullMain umask args fs0 pair resp).2 = .code 2 ↔
      (helpRequested args = false ∧
        ∃ cmd, from_args (preprocessArgs args) = some cmd ∧ openRejected cmd = false ∧
          commandSent cmd fs0 pair = true ∧ respOtherFailure resp = true)) ∧
    ((fullMain umask args fs0 pair resp).2 ≠ .code 1 →
      (fullMain umask args fs0 pair resp).2 ≠ .code 2 →
      (fullMain umask args fs0 pair resp).2 = .normal) := by
  unfold fullMain
  cases hh : helpRequested args with
  | true => refine ⟨by simp [hh], by simp [hh], by simp [hh]⟩
  | false =>
    cases hfa : from_args (preprocessArgs args) with
    | none => refine ⟨by simp [hh, hfa], by simp [hh, hfa], by simp [hh, hfa]⟩
    | some cmd =>
      have hexit := main_after_parse_exit umask cmd fs0 pair resp
      refine ⟨?_, ?_, ?_⟩
      · simp only [hh, Bool.false_eq_true, if_false, hfa]
        rw [hexit]
        constructor
        · intro h1
          by_cases hcond : (!openRejected cmd && commandSent cmd fs0 pair &&
              respOtherFailure resp) = true
          · rw [if_pos hcond] at h1; exact absurd h1 (by simp)
          · rw [if_neg hcond] at h1; exact absurd h1 (by simp)
        · rintro ⟨-, h⟩; exact absurd h (by simp)
      · simp only [hh, Bool.false_eq_true, if_false, hfa]
        rw [hexit]
        constructor
        · intro h2
          by_cases hcond : (!openRejected cmd && commandSent cmd fs0 pair &&
              respOtherFailure resp) = true
          · simp only [Bool.and_eq_true, Bool.not_eq_true'] at hcond
            exact ⟨by trivial, cmd, rfl, hcond.1.1, hcond.1.2, hcond.2⟩
          · rw [if_neg hcond] at h2; exact absurd h2 (by simp)
        · rintro ⟨-, cmd', hcmd', hopen', hsent', hfail'⟩
          obtain rfl : cmd = cmd' := by
            have := hcmd'
            simp only [Option.some.injEq] at this
            exact this
          rw [if_pos (by simp [hopen', hsent', hfail'])]
      · simp only [hh, Bool.false_eq_true, if_false, hfa]
        rw [hexit]
        intro h1 h2
        by_cases hcond : (!openRejected cmd && commandSent cmd fs0 pair &&
            respOtherFailure resp) = true
        · rw [if_pos hcond] at h2 ⊢; exact absurd rfl h2
        · rw [if_neg hcond]

end Ytmdctrl
